import Mathlib

/-!
Shallow embedding of `src/context/AuthProvider.tsx` (the session/profile
context provider).  React state becomes an explicit record, the external
collaborators (supabase auth/query client, AsyncStorage, router, Alert)
become explicit inputs and an emitted effect trace, and each asynchronous
handler becomes a pure state transformer.  JavaScript truthiness of the
optional-chained user id (`userSession?.user?.id`) is modelled explicitly:
a missing session, a missing user, or an empty-string id all count as
"no user id".  Values thrown in JavaScript need not be `Error` instances;
they are modelled by `JsValue` carrying an `isError` flag mirroring the
`instanceof Error` checks in both catch blocks.
-/

namespace Planty

/-- A supabase user: the code only reads `user.id`. -/
structure User where
  id : String
deriving DecidableEq

/-- A session: the code only reads the optional `session.user`. -/
structure Session where
  user : Option User
deriving DecidableEq

/-- A JavaScript value appearing on an error channel or thrown: `isError`
mirrors `instanceof Error`, `message` its `.message` property. -/
structure JsValue where
  isError : Bool
  message : String
deriving DecidableEq

/-- A row of the `profiles` table as selected by `getProfile`. -/
structure ProfileRow where
  username : String
  website : String
  avatar_url : String
deriving DecidableEq

/-- The `{ data, error, status }` triple returned by the supabase
`from('profiles')...single()` query. -/
structure ProfileQueryResult where
  data : Option ProfileRow
  error : Option JsValue
  status : Nat
deriving DecidableEq

/-- Which router operation a navigation effect used: `router.navigate`
(push-style) or `router.replace` (history-replacing). -/
inductive NavKind where
  | navigate
  | replace
deriving DecidableEq

/-- Observable side effects emitted by the provider's operations. -/
inductive Effect where
  | profileQuery (id : String)
  | multiRemove (keys : List String)
  | alert (title : String) (body : Option String)
  | nav (kind : NavKind) (pathname : String) (params : List (String × String))
deriving DecidableEq

/-- The provider's React state: `useState` hooks of `AuthProvider`. -/
structure AuthState where
  session : Option Session
  isLoading : Bool
  username : String
  website : String
  avatarUrl : String
deriving DecidableEq

/-- JavaScript truthiness of `s?.user?.id`: the chain yields a usable id
only when a session and user are present and the id is a non-empty
string. -/
def truthyUserId : Option Session → Option String
  | none => none
  | some s =>
    match s.user with
    | none => none
    | some u => if u.id = "" then none else some u.id

/-- `const userSession = currentSession || session` followed by the
`!userSession?.user?.id` guard of `getProfile`. -/
def effectiveUserId (currentSession : Option Session) (st : AuthState) : Option String :=
  truthyUserId (match currentSession with
    | some s => some s
    | none => st.session)

/-- The `catch` block of `getProfile`: alerts the message only for
`Error` instances, otherwise does nothing. -/
def profileCatchEffects (e : JsValue) : List Effect :=
  if e.isError then [Effect.alert e.message none] else []

/-- The `catch` block of `signOut`: always alerts, with the error's
message for `Error` instances and a generic text otherwise. -/
def signOutCatchEffects (e : JsValue) : List Effect :=
  [Effect.alert "Sign Out Error"
    (some (if e.isError then e.message else "An unknown error occurred"))]

/-- Synchronous prefix of `getProfile`, up to (and including) issuing the
profiles query: sets the loading flag, resolves the effective session,
and either returns early (no user id; the `finally` runs synchronously)
or issues the query, leaving it in flight. -/
def getProfileStart (currentSession : Option Session) (st : AuthState) :
    AuthState × Option String × List Effect :=
  let st1 := { st with isLoading := true }
  match effectiveUserId currentSession st with
  | none => ({ st1 with isLoading := false }, none, [])
  | some uid => (st1, some uid, [Effect.profileQuery uid])

/-- The three `set…` calls of the `if (data)` branch of `getProfile`. -/
def applyRow (row : ProfileRow) (st : AuthState) : AuthState :=
  { st with username := row.username, website := row.website, avatarUrl := row.avatar_url }

/-- Continuation of `getProfile` once the profiles query resolved with
`qres`: throw on an error whose status is not 406, mirror returned data
into the profile fields, run the `catch`/`finally` blocks. -/
def getProfileFinish (qres : ProfileQueryResult) (st : AuthState) :
    AuthState × List Effect :=
  match qres.error with
  | some e =>
    if qres.status ≠ 406 then
      ({ st with isLoading := false }, profileCatchEffects e)
    else
      match qres.data with
      | some row => ({ applyRow row st with isLoading := false }, [])
      | none => ({ st with isLoading := false }, [])
  | none =>
    match qres.data with
    | some row => ({ applyRow row st with isLoading := false }, [])
    | none => ({ st with isLoading := false }, [])

/-- `getProfile(currentSession?)` run to completion without interleaving:
the synchronous prefix followed, when a query was issued, by its
continuation on the query result `qres`. -/
def getProfile (currentSession : Option Session) (qres : ProfileQueryResult)
    (st : AuthState) : AuthState × List Effect :=
  match getProfileStart currentSession st with
  | (st1, none, effs) => (st1, effs)
  | (st1, some _, effs) =>
    let r := getProfileFinish qres st1
    (r.1, effs ++ r.2)

/-- The `onAuthStateChange` callback body together with the synchronous
prefix of the fire-and-forget `getProfile(newSession)` it may start:
clears the profile fields when the new session is null, always stores the
new session, and triggers a fetch when the new session has a user.
Returns the state visible after this event-loop turn, the id of a profile
query now in flight (if any), and the effects emitted. -/
def onAuthStateChangeSync (newSession : Option Session) (st : AuthState) :
    AuthState × Option String × List Effect :=
  let st1 :=
    match newSession with
    | none => { st with username := "", website := "", avatarUrl := "" }
    | some _ => st
  let st2 := { st1 with session := newSession }
  match newSession with
  | some s =>
    if s.user.isSome then getProfileStart (some s) st2 else (st2, none, [])
  | none => (st2, none, [])

/-- A session-changed event run to completion without interleaving: the
handler plus, when a fetch was started, its continuation on `qres`. -/
def onAuthStateChange (newSession : Option Session) (qres : ProfileQueryResult)
    (st : AuthState) : AuthState × List Effect :=
  match onAuthStateChangeSync newSession st with
  | (st1, none, effs) => (st1, effs)
  | (st1, some _, effs) =>
    let r := getProfileFinish qres st1
    (r.1, effs ++ r.2)

/-- `as` starts with `bs` (character-list version of `String.startsWith`). -/
def startsWithList : List Char → List Char → Bool
  | _, [] => true
  | [], _ :: _ => false
  | a :: as, b :: bs => a = b && startsWithList as bs

/-- `pat` occurs as a contiguous substring of `s`. -/
def hasInfixList : List Char → List Char → Bool
  | [], pat => pat.isEmpty
  | a :: rest, pat => startsWithList (a :: rest) pat || hasInfixList rest pat

/-- The AsyncStorage key filter of `signOut`:
`key.startsWith('supabase.auth') || key.includes('session')`. -/
def authKeyFilter (k : String) : Bool :=
  startsWithList k.toList ("supabase.auth").toList ||
    hasInfixList k.toList ("session").toList

/-- Results of the external calls `signOut` awaits, in program order:
`AsyncStorage.getAllKeys()`, `AsyncStorage.multiRemove(authKeys)` (used
only when the filtered key list is non-empty), `supabase.auth.signOut()`
(`none` = success, `some e` = error returned). -/
structure SignOutEnv where
  getAllKeysResult : Except JsValue (List String)
  multiRemoveResult : Except JsValue Unit
  signOutResult : Option JsValue

/-- `signOut()` run to completion: storage cleanup, backend sign-out,
state clearing and navigation on success, `catch`/`finally` otherwise. -/
def signOut (env : SignOutEnv) (st : AuthState) : AuthState × List Effect :=
  let st1 := { st with isLoading := true }
  match env.getAllKeysResult with
  | Except.error e => ({ st1 with isLoading := false }, signOutCatchEffects e)
  | Except.ok keys =>
    let authKeys := keys.filter authKeyFilter
    let removalEffects : List Effect :=
      if authKeys.isEmpty then [] else [Effect.multiRemove authKeys]
    let removalResult : Except JsValue Unit :=
      if authKeys.isEmpty then Except.ok () else env.multiRemoveResult
    match removalResult with
    | Except.error e =>
      ({ st1 with isLoading := false }, removalEffects ++ signOutCatchEffects e)
    | Except.ok _ =>
      match env.signOutResult with
      | some e =>
        ({ st1 with isLoading := false }, removalEffects ++ signOutCatchEffects e)
      | none =>
        let cleared := { st1 with session := none, username := "", website := "", avatarUrl := "", isLoading := false }
        (cleared, removalEffects ++ [Effect.nav NavKind.navigate "/(auth)/sign-in" []])

/-- Does a trace contain any alert? -/
def hasAlert (effs : List Effect) : Bool :=
  effs.any fun e =>
    match e with
    | Effect.alert _ _ => true
    | _ => false

/-- Does a trace contain an alert whose title or body carries `m`? -/
def hasAlertWithMsg (m : String) (effs : List Effect) : Bool :=
  effs.any fun e =>
    match e with
    | Effect.alert t b => t = m || b = some m
    | _ => false

/-- Does a trace contain any navigation? -/
def hasNavEffect (effs : List Effect) : Bool :=
  effs.any fun e =>
    match e with
    | Effect.nav _ _ _ => true
    | _ => false

/-- The navigations contained in a trace. -/
def navEffects (effs : List Effect) : List Effect :=
  effs.filter fun e =>
    match e with
    | Effect.nav _ _ _ => true
    | _ => false

/-! ### Interleaving semantics

The profile fetch started by the session-changed handler is
fire-and-forget: nothing awaits it, and nothing cancels it when a later
event arrives.  `SysState` pairs the provider state with the queries
still in flight; `SysStep` lets a session-changed event fire (one atomic
event-loop turn, including the synchronous prefix of any fetch it
starts) or lets any in-flight fetch resolve with an arbitrary query
result. -/

/-- Provider state together with the user ids of in-flight profile
queries. -/
structure SysState where
  auth : AuthState
  pending : List String
deriving DecidableEq

/-- Effect on the system state of one session-changed event (handler
plus synchronous fetch prefix, one event-loop turn). -/
def sysAuthStep (ns : Option Session) (s : SysState) : SysState :=
  let r := onAuthStateChangeSync ns s.auth
  ⟨r.1, s.pending ++ (r.2.1.map fun u => [u]).getD []⟩

/-- Effect on the system state of the `i`-th in-flight query resolving
with `q`. -/
def sysFetchDone (i : Nat) (q : ProfileQueryResult) (s : SysState) : SysState :=
  ⟨(getProfileFinish q s.auth).1, s.pending.eraseIdx i⟩

/-- One atomic event-loop turn of the provider. -/
inductive SysStep : SysState → SysState → Prop where
  | auth (ns : Option Session) (s : SysState) : SysStep s (sysAuthStep ns s)
  | done (i : Nat) (q : ProfileQueryResult) (s : SysState) :
      i < s.pending.length → SysStep s (sysFetchDone i q s)

/-- The provider's initial state: the `useState` initialisers. -/
def initState : SysState :=
  ⟨{ session := none, isLoading := true, username := "", website := "", avatarUrl := "" }, []⟩

/-- States the provider can reach from its initial state. -/
inductive Reach : SysState → Prop where
  | init : Reach initState
  | step {s t : SysState} : Reach s → SysStep s t → Reach t

/-! ### Concrete fixtures used by witnesses and counterexamples -/

/-- A concrete user. -/
def userU : User := ⟨"u1"⟩

/-- A concrete session for `userU`. -/
def sessU : Session := ⟨some userU⟩

/-- A concrete provider state with a signed-in user and populated
profile fields. -/
def stA : AuthState := ⟨some sessU, false, "alice", "alice.example", "avatar.png"⟩

/-- A concrete profile row. -/
def rowABC : ProfileRow := ⟨"a", "b", "c"⟩

/-! ### Helper lemmas -/

/-- The continuation of `getProfile` never touches the session. -/
lemma getProfileFinish_session (q : ProfileQueryResult) (st : AuthState) :
    (getProfileFinish q st).1.session = st.session := by
  rcases q with ⟨d, e, n⟩
  rcases e with _ | e
  · rcases d with _ | row <;> simp [getProfileFinish, applyRow]
  · by_cases hn : n ≠ 406
    · simp [getProfileFinish, hn]
    · rcases d with _ | row <;> simp [getProfileFinish, hn, applyRow]

/-- The continuation of `getProfile` always ends with the loading flag
reset (the `finally` block). -/
lemma getProfileFinish_isLoading (q : ProfileQueryResult) (st : AuthState) :
    (getProfileFinish q st).1.isLoading = false := by
  rcases q with ⟨d, e, n⟩
  rcases e with _ | e
  · rcases d with _ | row <;> simp [getProfileFinish, applyRow]
  · by_cases hn : n ≠ 406
    · simp [getProfileFinish, hn]
    · rcases d with _ | row <;> simp [getProfileFinish, hn, applyRow]

/-- `getProfile` always ends with the loading flag reset. -/
lemma getProfile_isLoading (cs : Option Session) (q : ProfileQueryResult)
    (st : AuthState) : (getProfile cs q st).1.isLoading = false := by
  rcases h : effectiveUserId cs st with _ | uid <;>
    simp [getProfile, getProfileStart, h, getProfileFinish_isLoading]

/-- The synchronous prefix of `getProfile` never touches `username`. -/
lemma getProfileStart_username (cs : Option Session) (st : AuthState) :
    (getProfileStart cs st).1.username = st.username := by
  rcases h : effectiveUserId cs st with _ | uid <;> simp [getProfileStart, h]

/-- The synchronous prefix of `getProfile` never touches `website`. -/
lemma getProfileStart_website (cs : Option Session) (st : AuthState) :
    (getProfileStart cs st).1.website = st.website := by
  rcases h : effectiveUserId cs st with _ | uid <;> simp [getProfileStart, h]

/-- The synchronous prefix of `getProfile` never touches `avatarUrl`. -/
lemma getProfileStart_avatarUrl (cs : Option Session) (st : AuthState) :
    (getProfileStart cs st).1.avatarUrl = st.avatarUrl := by
  rcases h : effectiveUserId cs st with _ | uid <;> simp [getProfileStart, h]

/-- The synchronous prefix of `getProfile` never touches the session. -/
lemma getProfileStart_session (cs : Option Session) (st : AuthState) :
    (getProfileStart cs st).1.session = st.session := by
  rcases h : effectiveUserId cs st with _ | uid <;> simp [getProfileStart, h]

/-! ### Claim theorems -/

/-- Claim C5: every session-changed event stores the new session as the
current session, and an event carrying null additionally clears
username, website and avatarUrl regardless of their prior values. -/
theorem c5_event_stores_session_null_clears_fields (ns : Option Session)
    (q : ProfileQueryResult) (st : AuthState) :
    (onAuthStateChange ns q st).1.session = ns ∧
      (ns = none →
        (onAuthStateChange ns q st).1.username = "" ∧
          (onAuthStateChange ns q st).1.website = "" ∧
          (onAuthStateChange ns q st).1.avatarUrl = "") := by
  rcases ns with _ | s
  · simp [onAuthStateChange, onAuthStateChangeSync]
  · refine ⟨?_, by simp⟩
    rcases hu : s.user with _ | u
    · simp [onAuthStateChange, onAuthStateChangeSync, hu]
    · rcases h : effectiveUserId (some s) { st with session := some s } with _ | uid <;>
        simp [onAuthStateChange, onAuthStateChangeSync, hu, getProfileStart, h,
          getProfileFinish_session]

/-- Claim C5 witness: at the null event the session is stored as null
and all profile fields are cleared. -/
theorem c5_witness :
    (onAuthStateChange none ⟨some rowABC, none, 200⟩ stA).1.session = none ∧
      (onAuthStateChange none ⟨some rowABC, none, 200⟩ stA).1.username = "" ∧
      (onAuthStateChange none ⟨some rowABC, none, 200⟩ stA).1.website = "" ∧
      (onAuthStateChange none ⟨some rowABC, none, 200⟩ stA).1.avatarUrl = "" :=
  ⟨(c5_event_stores_session_null_clears_fields none ⟨some rowABC, none, 200⟩ stA).1,
    (c5_event_stores_session_null_clears_fields none ⟨some rowABC, none, 200⟩ stA).2 rfl⟩

/-- Claim C6: a fetch-profile call whose profiles query returns the
not-found status 406 with no data leaves username, website and avatarUrl
unchanged and raises no alert. -/
theorem c6_not_found_silent_fields_unchanged (cs : Option Session)
    (st : AuthState) (e : JsValue) :
    (getProfile cs ⟨none, some e, 406⟩ st).1.username = st.username ∧
      (getProfile cs ⟨none, some e, 406⟩ st).1.website = st.website ∧
      (getProfile cs ⟨none, some e, 406⟩ st).1.avatarUrl = st.avatarUrl ∧
      hasAlert (getProfile cs ⟨none, some e, 406⟩ st).2 = false := by
  rcases h : effectiveUserId cs st with _ | uid <;>
    simp [getProfile, getProfileStart, h, getProfileFinish, hasAlert]

/-- Claim C8: a fetch-profile call with no effective user id is a no-op
(no query, session and profile fields unchanged), and every fetch-profile
call whatsoever holds the loading flag true while a query is in flight
and ends with the loading flag reset to false. -/
theorem c8_noop_without_uid_and_loading_discipline (cs : Option Session)
    (q : ProfileQueryResult) (st : AuthState) :
    (effectiveUserId cs st = none →
        (getProfile cs q st).1 = { st with isLoading := false } ∧
          (getProfile cs q st).2 = []) ∧
      (∀ uid, (getProfileStart cs st).2.1 = some uid →
        (getProfileStart cs st).1.isLoading = true) ∧
      (getProfile cs q st).1.isLoading = false := by
  refine ⟨fun h => ?_, fun uid h => ?_, getProfile_isLoading cs q st⟩
  · simp [getProfile, getProfileStart, h]
  · rcases h2 : effectiveUserId cs st with _ | uid2
    · simp [getProfileStart, h2] at h
    · simp [getProfileStart, h2]

/-- Claim C8 witness: with no session anywhere, fetch-profile only
resets the loading flag and emits nothing; a started query holds the
loading flag true. -/
theorem c8_witness :
    (getProfile none ⟨some rowABC, none, 200⟩ ⟨none, true, "", "", ""⟩).1 =
        { (⟨none, true, "", "", ""⟩ : AuthState) with isLoading := false } ∧
      (getProfile none ⟨some rowABC, none, 200⟩ ⟨none, true, "", "", ""⟩).2 = [] ∧
      (getProfileStart (some sessU) stA).1.isLoading = true ∧
      (getProfile none ⟨some rowABC, none, 200⟩ ⟨none, true, "", "", ""⟩).1.isLoading = false :=
  ⟨((c8_noop_without_uid_and_loading_discipline none ⟨some rowABC, none, 200⟩
      ⟨none, true, "", "", ""⟩).1 (by decide)).1,
    ((c8_noop_without_uid_and_loading_discipline none ⟨some rowABC, none, 200⟩
      ⟨none, true, "", "", ""⟩).1 (by decide)).2,
    (c8_noop_without_uid_and_loading_discipline (some sessU) ⟨some rowABC, none, 200⟩
      stA).2.1 "u1" (by decide),
    (c8_noop_without_uid_and_loading_discipline none ⟨some rowABC, none, 200⟩
      ⟨none, true, "", "", ""⟩).2.2⟩

/-- Claim C10: a session-changed event carrying a non-null session does
not clear the profile fields: after the handler's event-loop turn the
previous fields are still observable alongside the new session, and only
a later successful query resolution overwrites them with the fetched
row. -/
theorem c10_nonnull_event_retains_fields_until_fetch (s : Session)
    (st : AuthState) :
    (onAuthStateChangeSync (some s) st).1.username = st.username ∧
      (onAuthStateChangeSync (some s) st).1.website = st.website ∧
      (onAuthStateChangeSync (some s) st).1.avatarUrl = st.avatarUrl ∧
      (onAuthStateChangeSync (some s) st).1.session = some s ∧
      (∀ (row : ProfileRow) (n : Nat) (st2 : AuthState),
        (getProfileFinish ⟨some row, none, n⟩ st2).1.username = row.username ∧
          (getProfileFinish ⟨some row, none, n⟩ st2).1.website = row.website ∧
          (getProfileFinish ⟨some row, none, n⟩ st2).1.avatarUrl = row.avatar_url) := by
  refine ⟨?_, ?_, ?_, ?_, fun row n st2 => by simp [getProfileFinish, applyRow]⟩ <;>
    rcases hu : s.user with _ | u <;>
      simp [onAuthStateChangeSync, hu, getProfileStart_username,
        getProfileStart_website, getProfileStart_avatarUrl, getProfileStart_session]

/-- Claim C4: a session-changed event carrying a session with (non-empty)
user id `u` issues exactly one profiles query for `u`, and when the query
succeeds with a row the provider's fields become exactly that row's
username, website and avatar_url. -/
theorem c4_event_queries_and_mirrors_row (u : String) (row : ProfileRow)
    (n : Nat) (st : AuthState) (hu : u ≠ "") :
    (onAuthStateChange (some ⟨some ⟨u⟩⟩) ⟨some row, none, n⟩ st).2 =
        [Effect.profileQuery u] ∧
      (onAuthStateChange (some ⟨some ⟨u⟩⟩) ⟨some row, none, n⟩ st).1.username = row.username ∧
      (onAuthStateChange (some ⟨some ⟨u⟩⟩) ⟨some row, none, n⟩ st).1.website = row.website ∧
      (onAuthStateChange (some ⟨some ⟨u⟩⟩) ⟨some row, none, n⟩ st).1.avatarUrl = row.avatar_url := by
  simp [onAuthStateChange, onAuthStateChangeSync, getProfileStart, effectiveUserId,
    truthyUserId, hu, getProfileFinish, applyRow]

/-- Claim C4 witness: a concrete event for user `u1` queries `u1` and
mirrors the row `(a, b, c)`. -/
theorem c4_witness :
    ("u1" : String) ≠ "" ∧
      ((onAuthStateChange (some ⟨some ⟨"u1"⟩⟩) ⟨some rowABC, none, 200⟩ stA).2 =
          [Effect.profileQuery "u1"] ∧
        (onAuthStateChange (some ⟨some ⟨"u1"⟩⟩) ⟨some rowABC, none, 200⟩ stA).1.username = rowABC.username ∧
        (onAuthStateChange (some ⟨some ⟨"u1"⟩⟩) ⟨some rowABC, none, 200⟩ stA).1.website = rowABC.website ∧
        (onAuthStateChange (some ⟨some ⟨"u1"⟩⟩) ⟨some rowABC, none, 200⟩ stA).1.avatarUrl = rowABC.avatar_url) :=
  ⟨by decide, c4_event_queries_and_mirrors_row "u1" rowABC 200 stA (by decide)⟩

/-- Claim C7 counterexample: the profiles query fails with status 500
and an error value that is not an `Error` instance (mirroring the
`instanceof Error` guard); `getProfile` shows no alert at all, so no
alert carrying the error's message is shown — the fields are indeed
left unchanged. -/
theorem c7_counterexample :
    (getProfile (some sessU) ⟨none, some ⟨false, "boom"⟩, 500⟩ stA).2 =
        [Effect.profileQuery "u1"] ∧
      hasAlert (getProfile (some sessU) ⟨none, some ⟨false, "boom"⟩, 500⟩ stA).2 = false ∧
      (getProfile (some sessU) ⟨none, some ⟨false, "boom"⟩, 500⟩ stA).1.username = stA.username ∧
      (getProfile (some sessU) ⟨none, some ⟨false, "boom"⟩, 500⟩ stA).1.website = stA.website ∧
      (getProfile (some sessU) ⟨none, some ⟨false, "boom"⟩, 500⟩ stA).1.avatarUrl = stA.avatarUrl := by
  decide

/-- Claim C7 (amended): for every fetch-profile call whose profiles
query fails with a status other than 406 — whatever the error value —
the username, website and avatarUrl fields are left unchanged; a
blocking alert carrying the error's message is shown exactly when the
error value is an `Error` instance, and a non-`Error` failure is
swallowed silently with no alert. -/
theorem c7_non406_failure_fields_unchanged_alert_iff_error
    (cs : Option Session) (st : AuthState) (e : JsValue) (n : Nat)
    (uid : String) (huid : effectiveUserId cs st = some uid)
    (hn : n ≠ 406) :
    (getProfile cs ⟨none, some e, n⟩ st).1.username = st.username ∧
      (getProfile cs ⟨none, some e, n⟩ st).1.website = st.website ∧
      (getProfile cs ⟨none, some e, n⟩ st).1.avatarUrl = st.avatarUrl ∧
      (e.isError = true →
        (getProfile cs ⟨none, some e, n⟩ st).2 =
          [Effect.profileQuery uid, Effect.alert e.message none]) ∧
      (e.isError = false →
        (getProfile cs ⟨none, some e, n⟩ st).2 = [Effect.profileQuery uid] ∧
          hasAlert (getProfile cs ⟨none, some e, n⟩ st).2 = false) := by
  refine ⟨?_, ?_, ?_, fun he => ?_, fun he => ?_⟩ <;>
    first
      | simp [getProfile, getProfileStart, huid, getProfileFinish, hn,
          profileCatchEffects, he, hasAlert]
      | simp [getProfile, getProfileStart, huid, getProfileFinish, hn,
          profileCatchEffects]

/-- Claim C7 (amended) witness: at status 500, a concrete
`Error`-instance failure alerts its message while a concrete non-`Error`
failure alerts nothing, and both leave the fields unchanged. -/
theorem c7_witness :
    effectiveUserId (some sessU) stA = some "u1" ∧ (500 : Nat) ≠ 406 ∧
      (getProfile (some sessU) ⟨none, some ⟨true, "boom"⟩, 500⟩ stA).1.username = stA.username ∧
      (getProfile (some sessU) ⟨none, some ⟨true, "boom"⟩, 500⟩ stA).2 =
        [Effect.profileQuery "u1", Effect.alert "boom" none] ∧
      (getProfile (some sessU) ⟨none, some ⟨false, "quiet"⟩, 500⟩ stA).1.username = stA.username ∧
      hasAlert (getProfile (some sessU) ⟨none, some ⟨false, "quiet"⟩, 500⟩ stA).2 = false :=
  ⟨by decide, by decide,
    (c7_non406_failure_fields_unchanged_alert_iff_error (some sessU) stA
      ⟨true, "boom"⟩ 500 "u1" (by decide) (by decide)).1,
    (c7_non406_failure_fields_unchanged_alert_iff_error (some sessU) stA
      ⟨true, "boom"⟩ 500 "u1" (by decide) (by decide)).2.2.2.1 rfl,
    (c7_non406_failure_fields_unchanged_alert_iff_error (some sessU) stA
      ⟨false, "quiet"⟩ 500 "u1" (by decide) (by decide)).1,
    ((c7_non406_failure_fields_unchanged_alert_iff_error (some sessU) stA
      ⟨false, "quiet"⟩ 500 "u1" (by decide) (by decide)).2.2.2.2 rfl).2⟩

/-- Claim C2 counterexample: the backend sign-out returns an error value
that is not an `Error` instance with message `boom`; an alert is shown,
but it reads `An unknown error occurred` and carries `boom` nowhere, so
no alert carrying the failure message is shown. -/
theorem c2_counterexample :
    hasAlert (signOut ⟨Except.ok [], Except.ok (), some ⟨false, "boom"⟩⟩ stA).2 = true ∧
      hasAlertWithMsg "boom"
        (signOut ⟨Except.ok [], Except.ok (), some ⟨false, "boom"⟩⟩ stA).2 = false := by
  decide

/-- Claim C2 (amended): when the backend sign-out returns an error, an
alert is shown — carrying the failure message when the error is an
`Error` instance, and the generic text otherwise — no navigation occurs,
the session and profile fields keep their prior values, and the loading
flag is reset to false on exit. -/
theorem c2_backend_error_keeps_state_no_nav (keys : List String)
    (st : AuthState) (e : JsValue) :
    (signOut ⟨Except.ok keys, Except.ok (), some e⟩ st).1 = { st with isLoading := false } ∧
      hasNavEffect (signOut ⟨Except.ok keys, Except.ok (), some e⟩ st).2 = false ∧
      hasAlert (signOut ⟨Except.ok keys, Except.ok (), some e⟩ st).2 = true ∧
      (e.isError = true →
        Effect.alert "Sign Out Error" (some e.message) ∈
          (signOut ⟨Except.ok keys, Except.ok (), some e⟩ st).2) := by
  refine ⟨?_, ?_, ?_, fun he => ?_⟩
  · by_cases hk : (keys.filter authKeyFilter).isEmpty <;> simp [signOut, hk]
  · by_cases hk : (keys.filter authKeyFilter).isEmpty <;>
      simp [signOut, hk, hasNavEffect, signOutCatchEffects]
  · by_cases hk : (keys.filter authKeyFilter).isEmpty <;>
      simp [signOut, hk, hasAlert, signOutCatchEffects]
  · by_cases hk : (keys.filter authKeyFilter).isEmpty <;>
      simp [signOut, hk, signOutCatchEffects, he]

/-- Claim C2 (amended) witness: a concrete `Error`-instance backend
failure keeps the state, navigates nowhere, and alerts its message. -/
theorem c2_witness :
    (signOut ⟨Except.ok ["x.session"], Except.ok (), some ⟨true, "boom"⟩⟩ stA).1 =
        { stA with isLoading := false } ∧
      hasNavEffect (signOut ⟨Except.ok ["x.session"], Except.ok (), some ⟨true, "boom"⟩⟩ stA).2 = false ∧
      hasAlert (signOut ⟨Except.ok ["x.session"], Except.ok (), some ⟨true, "boom"⟩⟩ stA).2 = true ∧
      Effect.alert "Sign Out Error" (some "boom") ∈
        (signOut ⟨Except.ok ["x.session"], Except.ok (), some ⟨true, "boom"⟩⟩ stA).2 :=
  ⟨(c2_backend_error_keeps_state_no_nav ["x.session"] stA ⟨true, "boom"⟩).1,
    (c2_backend_error_keeps_state_no_nav ["x.session"] stA ⟨true, "boom"⟩).2.1,
    (c2_backend_error_keeps_state_no_nav ["x.session"] stA ⟨true, "boom"⟩).2.2.1,
    (c2_backend_error_keeps_state_no_nav ["x.session"] stA ⟨true, "boom"⟩).2.2.2 rfl⟩

/-- Claim C9: a caught failure value that is not an `Error` instance is
swallowed silently by fetch-profile (no alert at all), while sign-out in
the same situation shows the alert `An unknown error occurred`. -/
theorem c9_non_error_silent_fetch_generic_signout (e : JsValue)
    (he : e.isError = false) :
    (∀ (cs : Option Session) (st : AuthState) (n : Nat),
        hasAlert (getProfile cs ⟨none, some e, n⟩ st).2 = false) ∧
      (∀ (keys : List String) (st : AuthState),
        Effect.alert "Sign Out Error" (some "An unknown error occurred") ∈
          (signOut ⟨Except.ok keys, Except.ok (), some e⟩ st).2) := by
  constructor
  · intro cs st n
    rcases h : effectiveUserId cs st with _ | uid
    · simp [getProfile, getProfileStart, h, hasAlert]
    · by_cases hn : n ≠ 406 <;>
        simp [getProfile, getProfileStart, h, getProfileFinish, hn,
          profileCatchEffects, he, hasAlert]
  · intro keys st
    by_cases hk : (keys.filter authKeyFilter).isEmpty <;>
      simp [signOut, hk, signOutCatchEffects, he]

/-- Claim C9 witness: a concrete non-`Error` failure is silent in
fetch-profile and yields the generic sign-out alert. -/
theorem c9_witness :
    (⟨false, "oops"⟩ : JsValue).isError = false ∧
      hasAlert (getProfile (some sessU) ⟨none, some ⟨false, "oops"⟩, 500⟩ stA).2 = false ∧
      Effect.alert "Sign Out Error" (some "An unknown error occurred") ∈
        (signOut ⟨Except.ok [], Except.ok (), some ⟨false, "oops"⟩⟩ stA).2 :=
  ⟨rfl,
    (c9_non_error_silent_fetch_generic_signout ⟨false, "oops"⟩ rfl).1 (some sessU) stA 500,
    (c9_non_error_silent_fetch_generic_signout ⟨false, "oops"⟩ rfl).2 [] stA⟩

/-- A successful sign-out environment: two stored keys (one matching the
auth filter), storage operations succeed, backend sign-out succeeds. -/
def envOk : SignOutEnv := ⟨Except.ok ["supabase.auth.token", "other"], Except.ok (), none⟩

/-- Claim C1 (code bug): on backend success, sign-out clears the session
and all profile fields and performs exactly one navigation, targeting
the sign-in path with empty params — but that navigation is a
`router.navigate`, not the history-replacing stack reset the code's own
comment announces (the `router.replace` loop is commented out), so no
`replace`-kind navigation occurs. -/
theorem c1_signout_success_navigate_not_replace :
    (signOut envOk stA).1 = ⟨none, false, "", "", ""⟩ ∧
      navEffects (signOut envOk stA).2 =
        [Effect.nav NavKind.navigate "/(auth)/sign-in" []] ∧
      Effect.nav NavKind.replace "/(auth)/sign-in" [] ∉ (signOut envOk stA).2 := by
  decide

/-- The profiles query result the stale fetch resolves with in the C3
counterexample trace. -/
def c3Query : ProfileQueryResult := ⟨some rowABC, none, 200⟩

/-- The bad state of the C3 counterexample: sign-in event for `u1`,
then a null-session event, then the stale fetch for `u1` resolves. -/
def c3Bad : SysState :=
  sysFetchDone 0 c3Query (sysAuthStep none (sysAuthStep (some sessU) initState))

/-- Claim C3 counterexample: a reachable state in which the session is
null but the username is the non-empty `a` — the profile fetch started
for the earlier session resolved after the transition to no-session, so
the invariant does not hold in every reachable state. -/
theorem c3_counterexample :
    Reach c3Bad ∧ c3Bad.auth.session = none ∧ c3Bad.auth.username = "a" := by
  refine ⟨?_, by decide, by decide⟩
  exact Reach.step
    (Reach.step (Reach.step Reach.init (SysStep.auth (some sessU) initState))
      (SysStep.auth none (sysAuthStep (some sessU) initState)))
    (SysStep.done 0 c3Query (sysAuthStep none (sysAuthStep (some sessU) initState))
      (by decide))

/-- Claim C3 (amended): a session-changed event carrying null clears the
session and all profile fields in one atomic event-loop turn — the
transition itself never exposes a stale profile next to a null session —
but it leaves any in-flight profile fetches pending, which is what makes
the stale state of the counterexample reachable. -/
theorem c3_null_event_atomic_clear (s : SysState) :
    (sysAuthStep none s).auth.session = none ∧
      (sysAuthStep none s).auth.username = "" ∧
      (sysAuthStep none s).auth.website = "" ∧
      (sysAuthStep none s).auth.avatarUrl = "" ∧
      (sysAuthStep none s).pending = s.pending := by
  simp [sysAuthStep, onAuthStateChangeSync]

end Planty
